import Mathlib

/-!
Shallow embedding of the droidamp backend core: the extraction
orchestration and result-caching layer (`services/youtube.py`,
`services/cache.py`, plus the cache usage in `routers/search.py`).

External collaborators (the yt-dlp extractor, the SHA-256 digest from
`hashlib`, the wall clock) are modelled as explicit parameters: each core
operation takes the collaborator's outcome as an argument and the current
time as an integer, so every definition is executable and mirrors the
Python control flow line by line.
-/

namespace Droidamp

/-- Python truthiness of an optional string: `None` and `""` are falsy. -/
def truthyStr : Option String → Bool
  | some s => s ≠ ""
  | none => false

/-- Python `a or b` on optional strings: `a` when truthy, else `b`
(mirrors `entry.get("artist") or entry.get("uploader") or ...`). -/
def pyOr (a b : Option String) : Option String :=
  if truthyStr a then a else b

/-- The whitespace class of Python's `\s` / `str.strip()` (ASCII part). -/
def isSpace (c : Char) : Bool :=
  c = ' ' || c = '\t' || c = '\n' || c = '\r' || c = '\x0b' || c = '\x0c'

/-- Python `str.strip()` on a character list. -/
def stripChars (l : List Char) : List Char :=
  ((l.dropWhile isSpace).reverse.dropWhile isSpace).reverse

/-- Python `str.strip()`. -/
def pyStrip (s : String) : String :=
  String.mk (stripChars s.data)

/-- Python `str.lower()` (ASCII case fold). -/
def pyLower (s : String) : String :=
  String.mk (s.data.map Char.toLower)

/-- `config.py` `Settings`: the configuration surface the core consumes. -/
structure Settings where
  api_key : String
  cache_ttl_seconds : Int := 10800
  user_agent : String := "Mozilla/5.0 (Linux; Android 14; Pixel 5) AppleWebKit/537.36 (KHTML, like Gecko) Chrome/120.0.0.0 Mobile Safari/537.36"
deriving Repr, DecidableEq

/-- A concrete settings value with the `config.py` defaults. -/
def defaultSettings : Settings := { api_key := "test-key" }

/-- `models/schemas.py` `SkipSegment`. -/
structure SkipSegment where
  start_ms : Int
  end_ms : Int
  category : String
deriving Repr, DecidableEq

/-- `models/schemas.py` `TrackResponse`. -/
structure TrackResponse where
  video_id : String
  stream_url : String
  expires_at : Int
  title : String
  artist : Option String
  thumbnail : String
  duration_ms : Int
  skip_segments : List SkipSegment
  user_agent : String
deriving Repr, DecidableEq

/-- `models/schemas.py` `MixPlaylistResponse`. -/
structure MixPlaylistResponse where
  video_ids : List String
  mix_id : String
deriving Repr, DecidableEq

/-- The exception kinds the Python layer can raise: the two declared core
errors (`NotFoundError`, `ExtractionError`) plus the built-in `KeyError`
(from `entry["id"]` / `best["url"]`) and `AttributeError` (from
`response.expires_at` on a value that lacks the attribute). -/
inductive Err where
  | notFound (msg : String)
  | extractionFailed (msg : String)
  | keyError (key : String)
  | attrError (attr : String)
deriving Repr, DecidableEq

/-! ## Result Cache (`services/cache.py`)

The cache stores pairs `(value, cached_at)` keyed by a hex digest.  The
router (`routers/search.py`) stores both `TrackResponse` values (keys
`"track:..."`, `"next:..."`, plain queries) and `MixPlaylistResponse`
values (keys `"mix:..."`), even though `CacheService` annotates its value
type as `TrackResponse`; the sum type records what is actually stored. -/

/-- A value actually placed in the cache by `routers/search.py`. -/
inductive CacheValue where
  | track (t : TrackResponse)
  | mix (m : MixPlaylistResponse)
deriving Repr, DecidableEq

/-- Python attribute access `response.expires_at`: a `TrackResponse` has
the field, a `MixPlaylistResponse` raises `AttributeError`. -/
def expiresAtAttr : CacheValue → Except Err Int
  | .track t => .ok t.expires_at
  | .mix _ => .error (.attrError "expires_at")

/-- The `_cache` dict, as an association list with unique keys. -/
def Cache := List (String × CacheValue × Int)

instance : DecidableEq Cache := by
  unfold Cache
  infer_instance

/-- Dict membership/lookup `self._cache[key]`. -/
def cacheFind (c : Cache) (k : String) : Option (CacheValue × Int) :=
  match c with
  | [] => none
  | (k', v) :: rest => if k' = k then some v else cacheFind rest k

/-- Dict deletion `del self._cache[key]`. -/
def cacheErase (c : Cache) (k : String) : Cache :=
  match c with
  | [] => []
  | (k', v) :: rest => if k' = k then cacheErase rest k else (k', v) :: cacheErase rest k

/-- Dict update `self._cache[key] = value`. -/
def cacheInsert (c : Cache) (k : String) (v : CacheValue × Int) : Cache :=
  (k, v) :: cacheErase c k

/-- `CacheService._cache_key`: normalize (lower + strip), hash, keep the
first 16 hex characters.  The SHA-256 hex digest itself is the external
`hashlib` collaborator, passed as `hash`. -/
def cache_key (hash : String → String) (query : String) : String :=
  String.mk ((hash (pyStrip (pyLower query))).data.take 16)

/-- `CacheService.get`: absent on a missing key; evict and return absent
when the entry is older than the TTL; then read `response.expires_at`
(which raises on a mix value) and evict when inside the 1800 s buffer;
otherwise return the stored value. -/
def cache_get (s : Settings) (hash : String → String) (now : Int) (c : Cache)
    (query : String) : Except Err (Option CacheValue × Cache) :=
  let key := cache_key hash query
  match cacheFind c key with
  | none => .ok (none, c)
  | some (v, cached_at) =>
    if now - cached_at > s.cache_ttl_seconds then
      .ok (none, cacheErase c key)
    else
      match expiresAtAttr v with
      | .error e => .error e
      | .ok ea =>
        if ea < now + 1800 then
          .ok (none, cacheErase c key)
        else
          .ok (some v, c)

/-- `CacheService.set`: store `(response, now)` under the hashed key,
overwriting any prior entry. -/
def cache_set (hash : String → String) (now : Int) (c : Cache)
    (query : String) (v : CacheValue) : Cache :=
  cacheInsert c (cache_key hash query) (v, now)

/-! ## Raw extractor data (`yt_dlp` info dicts, §6 collaborator contract)

A raw entry is a Python dict; each field is `Option`-valued, `none`
standing for an absent key.  Durations are modelled as integers (the
fractional part of the extractor's float plays no role in any claim). -/

/-- One rendition (`formats` element) of a raw entry. -/
structure RawFormat where
  acodec : Option String := none
  vcodec : Option String := none
  url : Option String := none
deriving Repr, DecidableEq

/-- A full-mode raw extraction entry. -/
structure RawEntry where
  id : Option String := none
  title : Option String := none
  artist : Option String := none
  uploader : Option String := none
  thumbnail : Option String := none
  duration : Option Int := none
  url : Option String := none
  formats : List RawFormat := []
deriving Repr, DecidableEq

/-- A flat-mode entry as consumed by the mix/next paths: only `id` is
read; a `none` element of an entry list stands for a falsy entry (Python
`None` or `{}`), skipped by the `if e and ...` guards. -/
structure FlatEntry where
  id : Option String := none
deriving Repr, DecidableEq

/-- A full-mode top-level info dict for search: the `entries` key may be
absent (`"entries" not in info`). -/
structure FullInfo where
  entries : Option (List RawEntry) := none
deriving Repr, DecidableEq

/-- A flat-mode top-level info dict for the mix/next paths. -/
structure FlatInfo where
  entries : Option (List (Option FlatEntry)) := none
deriving Repr, DecidableEq

/-! ## Title cleaning (`YouTubeService._clean_title`)

`re.sub(pattern, "", title, flags=re.IGNORECASE)` is applied for six
patterns in order.  Each pattern has the shape `\s*OPEN body CLOSE`.
Matching is embedded directly: for these patterns greedy matching of
`\s*` and of `s?` in `Lyrics?` never needs backtracking (the character
required next is never one the greedy star could also consume), and the
alternation branches are pairwise non-overlapping, so first-success
alternation in the written order is exactly Python's behaviour. -/

/-- Greedy `\s*`: drop leading whitespace. -/
def dropSpaces (l : List Char) : List Char :=
  l.dropWhile isSpace

/-- Case-insensitive literal match (the literal given lowercase);
returns the rest of the input after the literal. -/
def matchCI : List Char → List Char → Option (List Char)
  | [], s => some s
  | _ :: _, [] => none
  | p :: ps, c :: cs => if p = c.toLower then matchCI ps cs else none

/-- `Lyrics?` (case-insensitive): `lyric` then an optional `s`. -/
def matchLyr (s : List Char) : Option (List Char) :=
  match matchCI "lyric".data s with
  | none => none
  | some r =>
    match r with
    | c :: cs => if c.toLower = 's' then some cs else some r
    | [] => some r

/-- The alternation `(Audio|Video|Music Video|Lyrics?)`, tried in the
pattern's order. -/
def altBody (s : List Char) : Option (List Char) :=
  match matchCI "audio".data s with
  | some r => some r
  | none =>
    match matchCI "video".data s with
    | some r => some r
    | none =>
      match matchCI "music video".data s with
      | some r => some r
      | none => matchLyr s

/-- `Official\s*(Audio|Video|Music Video|Lyrics?)` after the bracket. -/
def officialBody (s : List Char) : Option (List Char) :=
  match matchCI "official".data s with
  | none => none
  | some r => altBody (dropSpaces r)

/-- `Audio` alone after the bracket. -/
def audioBody (s : List Char) : Option (List Char) :=
  matchCI "audio".data s

/-- Try to match `\s*OPEN body CLOSE` at the start of the input;
on success return the input after the closing bracket. -/
def matchDecor (openCh closeCh : Char) (body : List Char → Option (List Char))
    (s : List Char) : Option (List Char) :=
  match dropSpaces s with
  | [] => none
  | c :: cs =>
    if c = openCh then
      match body cs with
      | none => none
      | some r =>
        match r with
        | c2 :: cs2 => if c2 = closeCh then some cs2 else none
        | [] => none
    else none

/-- `re.sub(pat, "", s)`: scan left to right, deleting every match of
the pattern; non-matching characters are kept.  `fuel` bounds the scan
(every step consumes at least one input character). -/
def subScan (pat : List Char → Option (List Char)) :
    Nat → List Char → List Char
  | 0, s => s
  | _ + 1, [] => []
  | fuel + 1, c :: cs =>
    match pat (c :: cs) with
    | some rest => subScan pat fuel rest
    | none => c :: subScan pat fuel cs

/-- One `re.sub(pat, "", s, flags=re.IGNORECASE)` pass. -/
def reSubDel (pat : List Char → Option (List Char)) (s : List Char) : List Char :=
  subScan pat s.length s

/-- The six patterns of `_clean_title`, in source order. -/
def cleanPatterns : List (List Char → Option (List Char)) :=
  [ matchDecor '(' ')' officialBody
  , matchDecor '[' ']' officialBody
  , matchDecor '(' ')' matchLyr
  , matchDecor '[' ']' matchLyr
  , matchDecor '(' ')' audioBody
  , matchDecor '[' ']' audioBody ]

/-- `YouTubeService._clean_title`: apply the six substitutions in order,
then `strip()`. -/
def clean_title (title : String) : String :=
  String.mk (stripChars (cleanPatterns.foldl (fun s p => reSubDel p s) title.data))

/-! ## Artist heuristic (`YouTubeService._extract_artist`) -/

/-- The characters before the first occurrence of `" - "`, if any
(Python `title.split(" - ")[0]` guarded by `" - " in title`). -/
def beforeDash : List Char → Option (List Char)
  | ' ' :: '-' :: ' ' :: _ => some []
  | c :: cs => (beforeDash cs).map (fun p => c :: p)
  | [] => none

/-- `YouTubeService._extract_artist`: the stripped left side of the
first `" - "`, else `None`. -/
def extract_artist (title : String) : Option String :=
  (beforeDash title.data).map (fun p => String.mk (stripChars p))

/-! ## Entry parsing (`YouTubeService._parse_entry`) -/

/-- The audio-only filter: `f.get("acodec") != "none" and
f.get("vcodec") == "none"` (an absent `acodec` compares unequal to
`"none"` and so passes). -/
def isAudioOnly (f : RawFormat) : Bool :=
  !(f.acodec == some "none") && (f.vcodec == some "none")

/-- `opus_formats[0] if opus_formats else audio_formats[0]` for a
non-empty audio-only list `f :: fs`. -/
def bestFormat (f : RawFormat) (fs : List RawFormat) : RawFormat :=
  match (f :: fs).filter (fun g => g.acodec == some "opus") with
  | o :: _ => o
  | [] => f

/-- Stream selection of `_parse_entry`: filter to audio-only formats;
if none, fall back to the entry's own `url` (failing with
`ExtractionError` when that is absent or empty); else prefer the first
Opus format, falling back to the first audio-only format, and read its
`"url"` key (a `KeyError` when absent). -/
def select_stream (e : RawEntry) : Except Err String :=
  match e.formats.filter isAudioOnly with
  | [] =>
    match e.url with
    | none => .error (.extractionFailed "No audio stream found")
    | some u =>
      if u = "" then .error (.extractionFailed "No audio stream found") else .ok u
  | f :: fs =>
    match (bestFormat f fs).url with
    | some u => .ok u
    | none => .error (.keyError "url")

/-- `YouTubeService._parse_entry`: select a stream URL, stamp
`expires_at = now + 14400`, clean the title, resolve the artist with
Python `or` semantics, and build the `TrackResponse`; `entry["id"]`
raises `KeyError` when the key is absent. -/
def parse_entry (s : Settings) (now : Int) (e : RawEntry) : Except Err TrackResponse :=
  match select_stream e with
  | .error err => .error err
  | .ok stream_url =>
    let expires_at := now + 14400
    let title := e.title.getD "Unknown"
    let artist := pyOr e.artist (pyOr e.uploader (extract_artist title))
    match e.id with
    | none => .error (.keyError "id")
    | some vid =>
      .ok { video_id := vid
            stream_url := stream_url
            expires_at := expires_at
            title := clean_title title
            artist := artist
            thumbnail := e.thumbnail.getD ""
            duration_ms := (e.duration.getD 0) * 1000
            skip_segments := []
            user_agent := s.user_agent }

/-! ## The four public operations (`YouTubeService`)

Each takes the extractor collaborator's outcome as a parameter:
`.error m` models a `yt_dlp.utils.DownloadError` with message `m`,
`.ok none` a falsy info dict. -/

/-- `YouTubeService.search_and_extract`: wrap extraction failure; a falsy
info, a missing `entries` key or an empty entry list is `NotFound`; else
parse the first entry. -/
def search_and_extract (s : Settings) (now : Int)
    (fetch : Except String (Option FullInfo)) : Except Err TrackResponse :=
  match fetch with
  | .error m => .error (.extractionFailed ("yt-dlp failed: " ++ m))
  | .ok none => .error (.notFound "No results found")
  | .ok (some info) =>
    match info.entries with
    | none => .error (.notFound "No results found")
    | some [] => .error (.notFound "No results found")
    | some (e :: _) => parse_entry s now e

/-- `YouTubeService.extract_by_id`: wrap extraction failure, else parse
the fetched entry. -/
def extract_by_id (s : Settings) (now : Int)
    (fetch : Except String RawEntry) : Except Err TrackResponse :=
  match fetch with
  | .error m => .error (.extractionFailed ("yt-dlp failed: " ++ m))
  | .ok e => parse_entry s now e

/-- `YouTubeService.get_mix_playlist`: wrap extraction failure; a falsy
info or empty `entries` is `NotFound`; else collect the truthy ids of the
truthy entries and tag the set with `mix_id = "RD" + video_id`. -/
def get_mix_playlist (video_id : String)
    (fetch : Except String (Option FlatInfo)) : Except Err MixPlaylistResponse :=
  match fetch with
  | .error m => .error (.extractionFailed ("yt-dlp failed: " ++ m))
  | .ok none => .error (.notFound "Could not get mix playlist")
  | .ok (some info) =>
    let entries := info.entries.getD []
    if entries.isEmpty then .error (.notFound "Empty mix playlist")
    else
      .ok { video_ids :=
              entries.filterMap (fun e =>
                match e with
                | some fe => if truthyStr fe.id then fe.id else none
                | none => none)
            mix_id := "RD" ++ video_id }

/-- Python `x not in exclude_ids` for an optional id against a string
set: `None` is never a member. -/
def idNotIn (id : Option String) (excl : List String) : Bool :=
  match id with
  | some s => !(excl.contains s)
  | none => true

/-- The candidate scan of `get_next_track`: the first truthy entry whose
id is not excluded determines `next_video_id` (which may itself be
`None`); `none` means the loop fell through. -/
def findNext (excl : List String) : List (Option FlatEntry) → Option (Option String)
  | [] => none
  | none :: rest => findNext excl rest
  | some fe :: rest =>
    if idNotIn fe.id excl then some fe.id else findNext excl rest

/-- The selection phase of `YouTubeService.get_next_track` on an
already-fetched flat info: union the seed into the exclusion set, fail
`NotFound` on a falsy info or empty entries, scan for the first
non-excluded candidate, and fail `NotFound` when the scan produced a
falsy id. -/
def select_next (video_id : String) (exclude_ids : List String)
    (info : Option FlatInfo) : Except Err String :=
  let excl := video_id :: exclude_ids
  match info with
  | none => .error (.notFound "Could not get recommendations")
  | some i =>
    let entries := i.entries.getD []
    if entries.isEmpty then .error (.notFound "No recommendations found")
    else
      match findNext excl entries with
      | some (some id) =>
        if id = "" then .error (.notFound "No next track found (all excluded)")
        else .ok id
      | some none => .error (.notFound "No next track found (all excluded)")
      | none => .error (.notFound "No next track found (all excluded)")

/-- `YouTubeService.get_next_track`: wrap flat-extraction failure, select
the next id, then fully resolve just that id via `extract_by_id`. -/
def get_next_track (s : Settings) (now : Int) (video_id : String)
    (exclude_ids : List String) (fetchFlat : Except String (Option FlatInfo))
    (fetchFull : String → Except String RawEntry) : Except Err TrackResponse :=
  match fetchFlat with
  | .error m => .error (.extractionFailed ("yt-dlp failed: " ++ m))
  | .ok info =>
    match select_next video_id exclude_ids info with
    | .error e => .error e
    | .ok id => extract_by_id s now (fetchFull id)

/-! ## Concrete fixtures used by the claim theorems -/

/-- A stand-in for the external hex-digest collaborator in concrete
evaluations (the identity on the normalized key). -/
def idHash : String → String := fun q => q

/-- A track whose stream URL expires 1700 s after time 1000. -/
def trackA : TrackResponse :=
  { video_id := "a", stream_url := "http://s/a", expires_at := 2700, title := "A",
    artist := none, thumbnail := "", duration_ms := 180000, skip_segments := [],
    user_agent := "ua" }

/-- A track cached at time 1000 whose stream URL expires at 15400. -/
def trackB : TrackResponse :=
  { video_id := "b", stream_url := "http://s/b", expires_at := 15400, title := "B",
    artist := none, thumbnail := "", duration_ms := 180000, skip_segments := [],
    user_agent := "ua" }

/-- Cache holding `trackA`, stored at time 1000 under query `"qa"`. -/
def cacheA : Cache := cache_set idHash 1000 [] "qa" (.track trackA)

/-- Cache holding `trackB`, stored at time 1000 under query `"qb"`. -/
def cacheB : Cache := cache_set idHash 1000 [] "qb" (.track trackB)

/-- A recommendation set as the router caches it on the `/mix` path. -/
def mixAbc : MixPlaylistResponse := { video_ids := ["b", "c"], mix_id := "RDabc" }

/-- Cache holding `mixAbc`, stored at time 1000 under key `"mix:abc"`. -/
def cacheMix : Cache := cache_set idHash 1000 [] "mix:abc" (.mix mixAbc)

/-- A raw entry with a perfectly usable Opus rendition but no `id` key. -/
def entryNoId : RawEntry :=
  { title := some "T",
    formats := [{ acodec := some "opus", vcodec := some "none", url := some "u" }] }

/-- A raw entry with an `id` but no renditions and no fallback URL. -/
def entryNoStream : RawEntry := { id := some "x", title := some "T" }

/-- The three-rendition example of the rendition-selection property. -/
def c5entry : RawEntry :=
  { id := some "v", title := some "t",
    formats := [ { acodec := some "aac", vcodec := some "none", url := some "u1" }
               , { acodec := some "opus", vcodec := some "none", url := some "u2" }
               , { acodec := some "aac", vcodec := some "h264", url := some "u3" } ] }

/-- A minimal well-formed raw entry. -/
def c6entry : RawEntry :=
  { id := some "v", title := some "t",
    formats := [{ acodec := some "opus", vcodec := some "none", url := some "u" }] }

/-- The track `c6entry` parses to at time 1000. -/
def c6track : TrackResponse :=
  { video_id := "v", stream_url := "u", expires_at := 15400, title := "t",
    artist := none, thumbnail := "", duration_ms := 0, skip_segments := [],
    user_agent := defaultSettings.user_agent }

/-- A raw entry whose title is in `Artist - Song` form, with no artist
and no uploader field. -/
def c7entry : RawEntry :=
  { id := some "v", title := some "Artist - Track [Lyrics]",
    formats := [{ acodec := some "opus", vcodec := some "none", url := some "u" }] }

/-- The track `c7entry` parses to at time 1000. -/
def c7track : TrackResponse :=
  { video_id := "v", stream_url := "u", expires_at := 15400, title := "Artist - Track",
    artist := some "Artist", thumbnail := "", duration_ms := 0, skip_segments := [],
    user_agent := defaultSettings.user_agent }

/-- A raw entry whose whole title is a decorative suffix. -/
def c10entry : RawEntry :=
  { id := some "v10", title := some "(Official Audio)",
    formats := [{ acodec := some "opus", vcodec := some "none", url := some "u" }] }

/-- The track `c10entry` parses to at time 1000: its title is empty. -/
def c10track : TrackResponse :=
  { video_id := "v10", stream_url := "u", expires_at := 15400, title := "",
    artist := none, thumbnail := "", duration_ms := 0, skip_segments := [],
    user_agent := defaultSettings.user_agent }

/-! ## Helper lemmas -/

/-- Entry lists whose elements are all truthy dicts with truthy ids,
as the §6 extractor contract promises. -/
def wfEntries (ids : List String) : List (Option FlatEntry) :=
  ids.map (fun i => some { id := some i })

/-- A flat info dict carrying `wfEntries ids`. -/
def wfFlatInfo (ids : List String) : Option FlatInfo :=
  some { entries := some (wfEntries ids) }

theorem findNext_wfEntries (excl : List String) (ids : List String) :
    findNext excl (wfEntries ids)
      = (ids.find? (fun i => !(excl.contains i))).map some := by
  induction ids with
  | nil => rfl
  | cons a l ih =>
    by_cases h : a ∈ excl
    · simp only [wfEntries, List.map_cons, findNext, idNotIn, List.find?_cons]
      simp [h]
      simpa [wfEntries] using ih
    · simp only [wfEntries, List.map_cons, findNext, idNotIn, List.find?_cons]
      simp [h]

theorem parse_entry_ok_fields (s : Settings) (now : Int) (e : RawEntry)
    (t : TrackResponse) (h : parse_entry s now e = .ok t) :
    ∃ u vid, select_stream e = .ok u ∧ e.id = some vid ∧
      t = { video_id := vid
            stream_url := u
            expires_at := now + 14400
            title := clean_title (e.title.getD "Unknown")
            artist := pyOr e.artist (pyOr e.uploader (extract_artist (e.title.getD "Unknown")))
            thumbnail := e.thumbnail.getD ""
            duration_ms := (e.duration.getD 0) * 1000
            skip_segments := []
            user_agent := s.user_agent } := by
  unfold parse_entry at h
  cases hs : select_stream e with
  | error err => rw [hs] at h; exact absurd h (by simp)
  | ok u =>
    rw [hs] at h
    cases hid : e.id with
    | none => rw [hid] at h; exact absurd h (by simp)
    | some vid =>
      rw [hid] at h
      simp only [Except.ok.injEq] at h
      exact ⟨u, vid, rfl, rfl, h.symm⟩

theorem bestFormat_mem (f : RawFormat) (fs : List RawFormat) :
    bestFormat f fs ∈ f :: fs := by
  unfold bestFormat
  cases ho : (f :: fs).filter (fun g => g.acodec == some "opus") with
  | nil => exact List.mem_cons_self f fs
  | cons o os =>
    have : o ∈ (f :: fs).filter (fun g => g.acodec == some "opus") := by
      rw [ho]; exact List.mem_cons_self o os
    exact List.mem_of_mem_filter this

theorem select_stream_error_shape (e : RawEntry) (err : Err)
    (h : select_stream e = .error err) :
    (∃ m, err = .extractionFailed m) ∨ err = .keyError "url" := by
  unfold select_stream at h
  split at h
  · split at h
    · simp only [Except.error.injEq] at h
      exact Or.inl ⟨_, h.symm⟩
    · split at h
      · simp only [Except.error.injEq] at h
        exact Or.inl ⟨_, h.symm⟩
      · exact absurd h (by simp)
  · split at h
    · exact absurd h (by simp)
    · simp only [Except.error.injEq] at h
      exact Or.inr h.symm

theorem select_stream_error_url (e : RawEntry)
    (hurl : ∀ f ∈ e.formats, f.url ≠ none) (err : Err)
    (h : select_stream e = .error err) :
    ∃ m, err = .extractionFailed m := by
  unfold select_stream at h
  split at h
  · split at h
    · simp only [Except.error.injEq] at h
      exact ⟨_, h.symm⟩
    · split at h
      · simp only [Except.error.injEq] at h
        exact ⟨_, h.symm⟩
      · exact absurd h (by simp)
  · rename_i f fs hf
    split at h
    · exact absurd h (by simp)
    · rename_i hbu
      exact absurd hbu (hurl _ (List.mem_of_mem_filter (hf ▸ bestFormat_mem f fs)))

theorem parse_entry_error_shape (s : Settings) (now : Int) (e : RawEntry)
    (err : Err) (h : parse_entry s now e = .error err) :
    (∃ m, err = .extractionFailed m) ∨ err = .keyError "url" ∨ err = .keyError "id" := by
  unfold parse_entry at h
  split at h
  · rename_i err2 hs
    simp only [Except.error.injEq] at h
    rcases select_stream_error_shape e err2 hs with hm | hk
    · exact Or.inl (h ▸ hm)
    · exact Or.inr (Or.inl (h ▸ hk))
  · split at h
    · simp only [Except.error.injEq] at h
      exact Or.inr (Or.inr h.symm)
    · exact absurd h (by simp)

theorem parse_entry_error_wf (s : Settings) (now : Int) (e : RawEntry)
    (hid : e.id ≠ none) (hurl : ∀ f ∈ e.formats, f.url ≠ none) (err : Err)
    (h : parse_entry s now e = .error err) :
    ∃ m, err = .extractionFailed m := by
  unfold parse_entry at h
  split at h
  · rename_i err2 hs
    simp only [Except.error.injEq] at h
    exact h ▸ select_stream_error_url e hurl err2 hs
  · split at h
    · rename_i hi
      exact absurd hi hid
    · exact absurd h (by simp)

/-- `List.find?` is the head of the filtered list. -/
theorem find?_eq_head?_filter {α : Type} (p : α → Bool) (l : List α) :
    l.find? p = (l.filter p).head? := by
  induction l with
  | nil => rfl
  | cons a l ih =>
    by_cases h : p a
    · rw [List.find?_cons_of_pos _ h, List.filter_cons_of_pos h]; rfl
    · rw [List.find?_cons_of_neg _ h, List.filter_cons_of_neg h]; exact ih

/-- The amended error taxonomy of the core: the two declared kinds, plus
`KeyError` for exactly the keys `"id"` and `"url"`; never anything else
(in particular never `AttributeError`). -/
def coreErrOK : Err → Prop
  | .notFound _ => True
  | .extractionFailed _ => True
  | .keyError k => k = "id" ∨ k = "url"
  | .attrError _ => False

theorem coreErrOK_parse (s : Settings) (now : Int) (e : RawEntry) (err : Err)
    (h : parse_entry s now e = .error err) : coreErrOK err := by
  rcases parse_entry_error_shape s now e err h with ⟨m, hm⟩ | hk | hk
  · rw [hm]; trivial
  · rw [hk]; exact Or.inr rfl
  · rw [hk]; exact Or.inl rfl

theorem extract_by_id_err (s : Settings) (now : Int)
    (rid : Except String RawEntry) (err : Err)
    (h : extract_by_id s now rid = .error err) : coreErrOK err := by
  cases rid with
  | error m =>
    simp only [extract_by_id, Except.error.injEq] at h
    rw [← h]; trivial
  | ok e => exact coreErrOK_parse s now e err h

theorem search_and_extract_err (s : Settings) (now : Int)
    (rq : Except String (Option FullInfo)) (err : Err)
    (h : search_and_extract s now rq = .error err) : coreErrOK err := by
  cases rq with
  | error m =>
    simp only [search_and_extract, Except.error.injEq] at h
    rw [← h]; trivial
  | ok oinfo =>
    cases oinfo with
    | none =>
      simp only [search_and_extract, Except.error.injEq] at h
      rw [← h]; trivial
    | some info =>
      cases hE : info.entries with
      | none =>
        simp only [search_and_extract, hE, Except.error.injEq] at h
        rw [← h]; trivial
      | some es =>
        cases es with
        | nil =>
          simp only [search_and_extract, hE, Except.error.injEq] at h
          rw [← h]; trivial
        | cons e0 rest =>
          simp only [search_and_extract, hE] at h
          exact coreErrOK_parse s now e0 err h

theorem get_mix_playlist_err (v : String) (rmix : Except String (Option FlatInfo))
    (err : Err) (h : get_mix_playlist v rmix = .error err) : coreErrOK err := by
  cases rmix with
  | error m =>
    simp only [get_mix_playlist, Except.error.injEq] at h
    rw [← h]; trivial
  | ok oinfo =>
    cases oinfo with
    | none =>
      simp only [get_mix_playlist, Except.error.injEq] at h
      rw [← h]; trivial
    | some info =>
      unfold get_mix_playlist at h
      by_cases he : (info.entries.getD []).isEmpty
      · simp only [he, if_true, Except.error.injEq] at h
        rw [← h]; trivial
      · simp only [he, Bool.false_eq_true, if_false] at h
        exact absurd h (by simp)

theorem select_next_err (v : String) (X : List String) (info : Option FlatInfo)
    (err : Err) (h : select_next v X info = .error err) :
    ∃ m, err = .notFound m := by
  cases info with
  | none =>
    simp only [select_next, Except.error.injEq] at h
    exact ⟨_, h.symm⟩
  | some i =>
    unfold select_next at h
    by_cases he : (i.entries.getD []).isEmpty
    · simp only [he, if_true, Except.error.injEq] at h
      exact ⟨_, h.symm⟩
    · simp only [he, Bool.false_eq_true, if_false] at h
      cases hfn : findNext (v :: X) (i.entries.getD []) with
      | none =>
        rw [hfn] at h
        simp only [Except.error.injEq] at h
        exact ⟨_, h.symm⟩
      | some oid =>
        cases oid with
        | none =>
          rw [hfn] at h
          simp only [Except.error.injEq] at h
          exact ⟨_, h.symm⟩
        | some id =>
          rw [hfn] at h
          by_cases hid : id = ""
          · subst hid
            simp only [if_pos, Except.error.injEq] at h
            exact ⟨_, h.symm⟩
          · simp only [hid, if_false] at h
            exact absurd h (by simp)

theorem get_next_track_err (s : Settings) (now : Int) (v : String)
    (X : List String) (rflat : Except String (Option FlatInfo))
    (ff : String → Except String RawEntry) (err : Err)
    (h : get_next_track s now v X rflat ff = .error err) : coreErrOK err := by
  cases rflat with
  | error m =>
    simp only [get_next_track, Except.error.injEq] at h
    rw [← h]; trivial
  | ok info =>
    simp only [get_next_track] at h
    cases hsel : select_next v X info with
    | error e =>
      rw [hsel] at h
      simp only [Except.error.injEq] at h
      obtain ⟨m, hm⟩ := select_next_err v X info e hsel
      rw [← h, hm]; trivial
    | ok id =>
      rw [hsel] at h
      exact extract_by_id_err s now (ff id) err h

theorem select_stream_best (e : RawEntry) (f : RawFormat) (fs : List RawFormat)
    (hf : e.formats.filter isAudioOnly = f :: fs) :
    select_stream e
      = (match (bestFormat f fs).url with
         | some u => .ok u
         | none => .error (.keyError "url")) := by
  unfold select_stream
  rw [hf]

theorem bestFormat_opus (f : RawFormat) (fs : List RawFormat) (o : RawFormat)
    (os : List RawFormat)
    (ho : (f :: fs).filter (fun g => g.acodec == some "opus") = o :: os) :
    bestFormat f fs = o := by
  unfold bestFormat
  rw [ho]

theorem bestFormat_no_opus (f : RawFormat) (fs : List RawFormat)
    (ho : (f :: fs).filter (fun g => g.acodec == some "opus") = []) :
    bestFormat f fs = f := by
  unfold bestFormat
  rw [ho]

/-! ## Claim theorems -/

/-- C1: `get_next_track`'s selection phase always excludes the seed
(`X' = X ∪ {v}`); on a candidate list of well-formed entries it returns
the first candidate id not in `X'` (and full resolution then runs on
exactly that id), fails `NotFound` when no candidate survives, and never
selects the seed or an id of `X`. -/
theorem C1_select_next_first_unexcluded (v : String) (X ids : List String)
    (h : ∀ id ∈ ids, id ≠ "") :
    (∀ c, ids.find? (fun i => !((v :: X).contains i)) = some c →
       select_next v X (wfFlatInfo ids) = .ok c ∧ c ∈ ids ∧ c ≠ v ∧ c ∉ X ∧
       ∀ (s : Settings) (now : Int) (ff : String → Except String RawEntry),
         get_next_track s now v X (.ok (wfFlatInfo ids)) ff = extract_by_id s now (ff c)) ∧
    (ids.find? (fun i => !((v :: X).contains i)) = none →
       ∃ m, select_next v X (wfFlatInfo ids) = .error (.notFound m)) := by
  constructor
  · intro c hc
    have hmem : c ∈ ids := List.mem_of_find?_eq_some hc
    have hp := List.find?_some hc
    have hnotin : c ∉ v :: X := by simpa using hp
    have hok : select_next v X (wfFlatInfo ids) = .ok c := by
      unfold select_next wfFlatInfo
      have hne : (wfEntries ids).isEmpty = false := by
        cases ids with
        | nil => simp at hc
        | cons a l => rfl
      simp only [Option.getD_some, hne, Bool.false_eq_true, if_false,
        findNext_wfEntries, hc, Option.map_some']
      simp [h c hmem]
    refine ⟨hok, hmem, ?_, ?_, ?_⟩
    · intro hvc; exact hnotin (hvc ▸ List.mem_cons_self v X)
    · intro hX; exact hnotin (List.mem_cons_of_mem v hX)
    · intro s now ff
      simp only [get_next_track, hok]
  · intro hnone
    cases hids : ids with
    | nil =>
      refine ⟨"No recommendations found", ?_⟩
      unfold select_next wfFlatInfo wfEntries
      simp
    | cons a l =>
      refine ⟨"No next track found (all excluded)", ?_⟩
      subst hids
      unfold select_next wfFlatInfo
      have hne : (wfEntries (a :: l)).isEmpty = false := rfl
      simp only [Option.getD_some, hne, Bool.false_eq_true, if_false,
        findNext_wfEntries, hnone, Option.map_none']

/-- C1 witness: the spec's example — seed `A`, exclusions `{A}`,
candidates `[A, B, C]` — selects `B`. -/
theorem C1_select_next_witness :
    select_next "A" ["A"] (wfFlatInfo ["A", "B", "C"]) = .ok "B" :=
  ((C1_select_next_first_unexcluded "A" ["A"] ["A", "B", "C"]
    (by decide)).1 "B" (by decide)).1

/-- C2: on a cache hit for a stored RecommendationSet (mix) entry that is
still inside the TTL, `CacheService.get` does not return the stored
value: it evaluates `response.expires_at`, which a `MixPlaylistResponse`
does not have, so an `AttributeError` escapes (the stream-expiry
condition is applied to every value kind, contradicting the spec). -/
theorem C2_mix_cache_hit_raises :
    cache_get defaultSettings idHash 1000 cacheMix "mix:abc"
      = .error (.attrError "expires_at") := by rfl

/-- C3 counterexample: a raw entry with a perfectly usable Opus
rendition but no `id` key makes `_parse_entry` raise `KeyError`, an
exception kind that is neither `NotFound` nor `ExtractionFailed`, so the
claim that no other kind escapes (even for entries missing `id`) is
false. -/
theorem C3_missing_id_keyerror :
    parse_entry defaultSettings 1000 entryNoId = .error (.keyError "id") := by rfl

/-- C3 (amended): the four core operations fail only with `NotFound`,
`ExtractionFailed`, or a `KeyError` on `"id"`/`"url"`; on entries that do
carry an `id` and whose renditions all carry a `url` (as the §6
collaborator contract promises), parsing fails only with
`ExtractionFailed`. -/
theorem C3_error_taxonomy (s : Settings) (now : Int)
    (rq : Except String (Option FullInfo)) (rid : Except String RawEntry)
    (mv v : String) (X : List String)
    (rmix rflat : Except String (Option FlatInfo))
    (ff : String → Except String RawEntry) (e1 e2 e3 e4 : Err) :
    (search_and_extract s now rq = .error e1 → coreErrOK e1) ∧
    (extract_by_id s now rid = .error e2 → coreErrOK e2) ∧
    (get_mix_playlist mv rmix = .error e3 → coreErrOK e3) ∧
    (get_next_track s now v X rflat ff = .error e4 → coreErrOK e4) ∧
    (∀ (e : RawEntry) (err : Err), e.id ≠ none →
       (∀ f ∈ e.formats, f.url ≠ none) →
       parse_entry s now e = .error err → ∃ m, err = .extractionFailed m) :=
  ⟨search_and_extract_err s now rq e1,
   extract_by_id_err s now rid e2,
   get_mix_playlist_err mv rmix e3,
   get_next_track_err s now v X rflat ff e4,
   fun e err hid hurl h => parse_entry_error_wf s now e hid hurl err h⟩

/-- C3 witness: a transport failure is classified `ExtractionFailed`, and
an id-carrying entry with no usable rendition and no fallback URL fails
with `ExtractionFailed` only. -/
theorem C3_error_taxonomy_witness :
    coreErrOK (Err.extractionFailed "yt-dlp failed: boom") ∧
    (∃ m, Err.extractionFailed "No audio stream found" = Err.extractionFailed m) := by
  constructor
  · exact (C3_error_taxonomy defaultSettings 1000 (.error "boom") (.error "x")
      "m" "v" [] (.error "y") (.error "z") (fun _ => .error "w")
      (.extractionFailed "yt-dlp failed: boom") (.notFound "n") (.notFound "n")
      (.notFound "n")).1 (by rfl)
  · exact (C3_error_taxonomy defaultSettings 1000 (.error "boom") (.error "x")
      "m" "v" [] (.error "y") (.error "z") (fun _ => .error "w")
      (.notFound "n") (.notFound "n") (.notFound "n")
      (.notFound "n")).2.2.2.2 entryNoStream
      (.extractionFailed "No audio stream found")
      (by simp [entryNoStream]) (by simp [entryNoStream]) (by rfl)

/-- C4: a cached Track is returned exactly when neither freshness
condition fires, and is absent (with the entry evicted) exactly when the
TTL is exceeded or `expires_at` is inside the 1800 s safety buffer; the
two concrete spec scenarios (expiry at `now + 1700` seen at `now`; TTL
exceeded at `now + 10900` despite `expires_at = now + 14400`) both come
out absent. -/
theorem C4_track_cache_freshness (s : Settings) (hash : String → String)
    (now cached_at : Int) (t : TrackResponse) (q : String) (c : Cache)
    (hfind : cacheFind c (cache_key hash q) = some (.track t, cached_at)) :
    ((now - cached_at > s.cache_ttl_seconds ∨ t.expires_at < now + 1800) →
       cache_get s hash now c q = .ok (none, cacheErase c (cache_key hash q))) ∧
    (¬(now - cached_at > s.cache_ttl_seconds ∨ t.expires_at < now + 1800) →
       cache_get s hash now c q = .ok (some (.track t), c)) ∧
    cache_get defaultSettings idHash 1000 cacheA "qa" = .ok (none, []) ∧
    cache_get defaultSettings idHash 11900 cacheB "qb" = .ok (none, []) := by
  refine ⟨?_, ?_, by rfl, by rfl⟩
  · intro hcond
    simp only [cache_get, hfind, expiresAtAttr]
    by_cases h1 : now - cached_at > s.cache_ttl_seconds
    · simp [h1]
    · have h2 : t.expires_at < now + 1800 := hcond.resolve_left h1
      simp [h1, h2]
  · intro hcond
    obtain ⟨h1, h2⟩ := not_or.mp hcond
    simp [cache_get, hfind, expiresAtAttr, h1, h2]

/-- C4 witness: a fresh track (`cached_at = now`, expiry comfortably
beyond the buffer) is returned as stored. -/
theorem C4_track_cache_witness :
    cache_get defaultSettings idHash 1000 cacheB "qb"
      = .ok (some (.track trackB), cacheB) :=
  (C4_track_cache_freshness defaultSettings idHash 1000 1000 trackB "qb" cacheB
    (by rfl)).2.1 (by decide)

/-- C5: among the renditions passing the audio-only filter, the selected
stream is the first Opus rendition when one exists, else the first
audio-only rendition in extractor order; the selected rendition is one of
the entry's own audio-only renditions; on the spec's three-rendition
example the Opus URL `u2` is selected. -/
theorem C5_rendition_selection (e : RawEntry) (g : RawFormat) (u : String)
    (hg : Option.orElse
            ((e.formats.filter isAudioOnly).find? (fun f => f.acodec == some "opus"))
            (fun _ => (e.formats.filter isAudioOnly).head?) = some g)
    (hu : g.url = some u) :
    select_stream e = .ok u ∧ g ∈ e.formats ∧ isAudioOnly g = true ∧
    select_stream c5entry = .ok "u2" := by
  cases hf : e.formats.filter isAudioOnly with
  | nil =>
    rw [hf] at hg
    simp [Option.orElse] at hg
  | cons f fs =>
    rw [hf, find?_eq_head?_filter] at hg
    cases ho : (f :: fs).filter (fun x => x.acodec == some "opus") with
    | cons o os =>
      rw [ho] at hg
      have hog : o = g := by simpa [Option.orElse] using hg
      subst hog
      have hgmem : o ∈ f :: fs :=
        List.mem_of_mem_filter (ho ▸ List.mem_cons_self o os)
      refine ⟨?_, List.mem_of_mem_filter (hf ▸ hgmem),
        List.of_mem_filter (hf ▸ hgmem), by rfl⟩
      rw [select_stream_best e f fs hf, bestFormat_opus f fs o os ho, hu]
    | nil =>
      rw [ho] at hg
      have hog : f = g := by simpa [Option.orElse] using hg
      subst hog
      have hgmem : f ∈ f :: fs := List.mem_cons_self f fs
      refine ⟨?_, List.mem_of_mem_filter (hf ▸ hgmem),
        List.of_mem_filter (hf ▸ hgmem), by rfl⟩
      rw [select_stream_best e f fs hf, bestFormat_no_opus f fs ho, hu]

/-- C5 witness: the three-rendition example itself. -/
theorem C5_rendition_witness : select_stream c5entry = .ok "u2" :=
  (C5_rendition_selection c5entry
    { acodec := some "opus", vcodec := some "none", url := some "u2" } "u2"
    (by rfl) (by rfl)).1

/-- C6: every successfully parsed entry carries
`expires_at = now + 14400`, whatever the raw entry contained. -/
theorem C6_expires_at_horizon (s : Settings) (now : Int) (e : RawEntry)
    (t : TrackResponse) (h : parse_entry s now e = .ok t) :
    t.expires_at = now + 14400 := by
  obtain ⟨u, vid, _, _, ht⟩ := parse_entry_ok_fields s now e t h
  rw [ht]

/-- C6 witness: the concrete entry `c6entry` parsed at time 1000. -/
theorem C6_expires_at_witness : c6track.expires_at = 1000 + 14400 :=
  C6_expires_at_horizon defaultSettings 1000 c6entry c6track (by rfl)

/-- C9: a successful `get_mix_playlist v` returns a set whose `mix_id`
is `"RD" ++ v`. -/
theorem C9_mix_id_seeded (v : String) (fetch : Except String (Option FlatInfo))
    (r : MixPlaylistResponse) (h : get_mix_playlist v fetch = .ok r) :
    r.mix_id = "RD" ++ v := by
  cases fetch with
  | error m => exact absurd h (by simp [get_mix_playlist])
  | ok oinfo =>
    cases oinfo with
    | none => exact absurd h (by simp [get_mix_playlist])
    | some info =>
      unfold get_mix_playlist at h
      by_cases he : (info.entries.getD []).isEmpty
      · simp [he] at h
      · simp only [he, Bool.false_eq_true, if_false, Except.ok.injEq] at h
        rw [← h]

/-- C9 witness: a one-entry mix for seed `"abc"`. -/
theorem C9_mix_id_witness : mixAbc.mix_id = "RD" ++ "abc" :=
  C9_mix_id_seeded "abc"
    (.ok (some { entries := some [some { id := some "b" }, some { id := some "c" }] }))
    mixAbc (by rfl)

/-- C7: a parsed track's title is the decorative-suffix-stripped,
whitespace-trimmed raw title, and its artist follows the chain explicit
artist field → uploader field → left side of the first `" - "` of the
original pre-cleaning title → absent; on the spec's examples the cleaner
maps `"Song Title (Official Music Video)"` to `"Song Title"` and
`"Artist - Track [Lyrics]"` to `"Artist - Track"` with heuristic artist
`"Artist"`. -/
theorem C7_title_artist (s : Settings) (now : Int) (e : RawEntry)
    (t : TrackResponse) (h : parse_entry s now e = .ok t) :
    t.title = clean_title (e.title.getD "Unknown") ∧
    t.artist = pyOr e.artist (pyOr e.uploader (extract_artist (e.title.getD "Unknown"))) ∧
    clean_title "Song Title (Official Music Video)" = "Song Title" ∧
    clean_title "Artist - Track [Lyrics]" = "Artist - Track" ∧
    extract_artist "Artist - Track [Lyrics]" = some "Artist" := by
  obtain ⟨u, vid, _, _, ht⟩ := parse_entry_ok_fields s now e t h
  subst ht
  exact ⟨rfl, rfl, by rfl, by rfl, by rfl⟩

/-- C7 witness: the `"Artist - Track [Lyrics]"` entry with no artist and
no uploader field resolves title `"Artist - Track"` and artist
`"Artist"`. -/
theorem C7_title_artist_witness :
    c7track.title = clean_title ((c7entry.title).getD "Unknown") ∧
    c7track.artist
      = pyOr c7entry.artist
          (pyOr c7entry.uploader (extract_artist ((c7entry.title).getD "Unknown"))) ∧
    clean_title "Song Title (Official Music Video)" = "Song Title" ∧
    clean_title "Artist - Track [Lyrics]" = "Artist - Track" ∧
    extract_artist "Artist - Track [Lyrics]" = some "Artist" :=
  C7_title_artist defaultSettings 1000 c7entry c7track (by rfl)

/-- C8 counterexample: the round trip does not return the stored value
for every value kind — a freshly stored RecommendationSet, looked up
immediately through a key equal after case-folding and trimming, raises
`AttributeError` from the stream-expiry check instead of being returned
(the same defect C2 reports). -/
theorem C8_mix_roundtrip_raises :
    cache_get defaultSettings idHash 1000
        (cache_set idHash 1000 [] "MixKey " (.mix mixAbc)) "mixkey"
      = .error (.attrError "expires_at") := by rfl

/-- C8 (amended): for every Track value, `set` and `get` address the
same storage slot for any two lookup keys equal after case-folding and
trimming (the digest is computed from the normalized key only), so a
`set` followed immediately by a `get` through the other spelling returns
the stored Track while it is fresh — for every choice of digest
function.  (A RecommendationSet value instead raises `AttributeError`
on the `get`, as the counterexample shows.) -/
theorem C8_normalized_key_roundtrip (hash : String → String) (s : Settings)
    (now : Int) (q1 q2 : String) (t : TrackResponse) (c : Cache)
    (hnorm : pyStrip (pyLower q1) = pyStrip (pyLower q2))
    (httl : 0 ≤ s.cache_ttl_seconds) (hfresh : now + 1800 ≤ t.expires_at) :
    cache_key hash q1 = cache_key hash q2 ∧
    cache_get s hash now (cache_set hash now c q1 (.track t)) q2
      = .ok (some (.track t), cache_set hash now c q1 (.track t)) := by
  have hkey : cache_key hash q1 = cache_key hash q2 := by
    unfold cache_key
    rw [hnorm]
  refine ⟨hkey, ?_⟩
  have hfind : cacheFind (cache_set hash now c q1 (.track t)) (cache_key hash q2)
      = some (.track t, now) := by
    unfold cache_set cacheInsert cacheFind
    rw [if_pos hkey]
  have h1 : ¬ (now - now > s.cache_ttl_seconds) := by omega
  have h2 : ¬ (t.expires_at < now + 1800) := by omega
  simp [cache_get, hfind, expiresAtAttr, h1, h2, httl]

/-- C8 witness: the keys `"  HeLLo "` and `"hello"` normalize alike, and
the round trip returns the stored track. -/
theorem C8_roundtrip_witness :
    cache_key idHash "  HeLLo " = cache_key idHash "hello" ∧
    cache_get defaultSettings idHash 1000
        (cache_set idHash 1000 [] "  HeLLo " (.track trackB)) "hello"
      = .ok (some (.track trackB), cache_set idHash 1000 [] "  HeLLo " (.track trackB)) :=
  C8_normalized_key_roundtrip idHash defaultSettings 1000 "  HeLLo " "hello" trackB []
    (by rfl) (by decide) (by decide)

/-- C10: an entry whose whole title is the decorative suffix
`"(Official Audio)"` parses successfully into a track with an empty
title — nothing guards against a fully-erased title. -/
theorem C10_empty_cleaned_title :
    parse_entry defaultSettings 1000 c10entry = .ok c10track ∧ c10track.title = "" := by
  exact ⟨by rfl, rfl⟩

end Droidamp
